import Mathlib

/-!
# Verification of the Elliott-wave analyzer core (`elt_1210.py`)

Shallow embedding of the algorithmic core of `ElliottWaveAnalyzer`:
swing detection (`_detect_swings`), the nested wave-candidate search and
facade (`identify_wave`), and the classifier (`classify_pattern`).

Modelling conventions:
* A price point is a pair `(timestamp, close)` with `timestamp : ℤ`
  (pandas index values, strictly increasing for real data) and
  `close : ℚ` (exact rationals in place of floats; every comparison and
  ratio in the source is reproduced verbatim on ℚ).
* pandas elementwise comparisons against `shift(±1)` produce `False`
  where the shifted value is NaN (the series boundary); this is modelled
  by comparisons on `Option ℚ` that return `false` when either side is
  `none`.
* `Series.iloc[k]` / `Series.index[k]` raise `IndexError` when `k` is out
  of range; this is modelled with `Except String`, the error value
  standing for the raised Python exception.
* Python's `/` on numbers raises `ZeroDivisionError` on a zero
  denominator; in `classify_pattern` this is modelled by an explicit
  zero test before the (total) ℚ division.  In `identify_wave` the
  division at the retracement gate runs on numpy floats, where a zero
  denominator silently yields `inf`/`nan`, both of which fail the
  `0.5 ≤ r ≤ 0.618` gate; the total ℚ division (`x / 0 = 0`) fails the
  same gate, so the two models emit exactly the same candidates.
-/

/-- One wave segment of the candidate dictionary built in
`identify_wave` (`price_range`, `start_date`, `end_date`, `duration`). -/
structure WaveSegment where
  price_range : ℚ × ℚ
  start_date : ℤ
  end_date : ℤ
  duration : ℤ
deriving DecidableEq, Repr

/-- The candidate dictionary `{'Wave_1': …, 'Wave_2': …, 'Wave_3': …}`. -/
structure WaveCandidate where
  Wave_1 : WaveSegment
  Wave_2 : WaveSegment
  Wave_3 : WaveSegment
deriving DecidableEq, Repr

/-- The dictionary literal appended to `wave_points` in `identify_wave`
(lines 117–136), built from the four swing points
`wave_1_low = lows[i]`, `wave_1_high = highs[j-1]`, `wave_2_low = lows[j]`,
`wave_3_high = highs[j]` (each a `(timestamp, price)` pair). -/
def mkWaveCandidate (wave_1_low wave_1_high wave_2_low wave_3_high : ℤ × ℚ) :
    WaveCandidate :=
  ⟨⟨(wave_1_low.2, wave_1_high.2), wave_1_low.1, wave_1_high.1,
      wave_1_high.1 - wave_1_low.1⟩,
   ⟨(wave_1_high.2, wave_2_low.2), wave_1_high.1, wave_2_low.1,
      wave_2_low.1 - wave_1_high.1⟩,
   ⟨(wave_2_low.2, wave_3_high.2), wave_2_low.1, wave_3_high.1,
      wave_3_high.1 - wave_2_low.1⟩⟩

/-- pandas `x > y` on two (possibly NaN) scalars: `false` when either side
is missing, strict comparison otherwise. -/
def optGtB : Option ℚ → Option ℚ → Bool
  | some x, some y => decide (y < x)
  | _, _ => false

/-- pandas `x < y` on two (possibly NaN) scalars. -/
def optLtB : Option ℚ → Option ℚ → Bool
  | some x, some y => decide (x < y)
  | _, _ => false

/-- Model of `prices.shift(1)` evaluated at position `i`: the previous price, NaN
(`none`) at position 0. -/
def shiftPos (prices : List ℚ) (i : ℕ) : Option ℚ :=
  if i = 0 then none else prices[i - 1]?

/-- Model of `prices.shift(-1)` evaluated at position `i`: the next price, NaN
(`none`) at the last position. -/
def shiftNeg (prices : List ℚ) (i : ℕ) : Option ℚ :=
  prices[i + 1]?

/-- The boolean mask `(prices > prices.shift(1)) & (prices > prices.shift(-1))`
of `_detect_swings` at position `i`. -/
def swing_high_mask (prices : List ℚ) (i : ℕ) : Bool :=
  optGtB prices[i]? (shiftPos prices i) && optGtB prices[i]? (shiftNeg prices i)

/-- The boolean mask `(prices < prices.shift(1)) & (prices < prices.shift(-1))`
of `_detect_swings` at position `i`. -/
def swing_low_mask (prices : List ℚ) (i : ℕ) : Bool :=
  optLtB prices[i]? (shiftPos prices i) && optLtB prices[i]? (shiftNeg prices i)

/-- Boolean-mask selection `series[mask]`: keeps the elements whose
position satisfies the mask, in series order.  `k` is the position of the
head of `l` in the full series. -/
def selectMask (mask : ℕ → Bool) : ℕ → List (ℤ × ℚ) → List (ℤ × ℚ)
  | _, [] => []
  | k, x :: xs =>
    if mask k then x :: selectMask mask (k + 1) xs else selectMask mask (k + 1) xs

/-- Embedding of `_detect_swings` (lines 76–89): builds the two swing masks, selects the
matching `(timestamp, price)` rows, and sorts each result by index
(`sort_index`).  Returns `(swing_highs, swing_lows)`. -/
def detect_swings (series : List (ℤ × ℚ)) : List (ℤ × ℚ) × List (ℤ × ℚ) :=
  (List.insertionSort (fun a b : ℤ × ℚ => a.1 ≤ b.1)
      (selectMask (swing_high_mask (series.map Prod.snd)) 0 series),
   List.insertionSort (fun a b : ℤ × ℚ => a.1 ≤ b.1)
      (selectMask (swing_low_mask (series.map Prod.snd)) 0 series))

/-- Embedding of `classify_pattern` (lines 42–74).  `none` models both an absent
(`None`) and an empty candidate mapping — `if not wave_points` is true for
both.  The explicit zero test models Python raising `ZeroDivisionError`
at `wave_2_length / wave_1_length` when `wave_1_length == 0`. -/
def classify_pattern (wave_points : Option WaveCandidate) : Except String String :=
  match wave_points with
  | none => .ok "Insufficient Data"
  | some wp =>
    let wave_1 := wp.Wave_1.price_range
    let wave_2 := wp.Wave_2.price_range
    let wave_3 := wp.Wave_3.price_range
    let wave_1_length := |wave_1.2 - wave_1.1|
    let wave_2_length := |wave_2.2 - wave_2.1|
    let wave_3_length := |wave_3.2 - wave_3.1|
    if wave_1_length = 0 then .error "ZeroDivisionError"
    else
      let wave_2_retracement := wave_2_length / wave_1_length
      if 382/1000 ≤ wave_2_retracement ∧ wave_2_retracement ≤ 618/1000 ∧
          wave_1_length < wave_3_length
      then .ok "Impulsive" else .ok "Corrective"

/-- The index pairs `(i, j)` visited by the nested loops of
`identify_wave` (lines 100–101): `i` over `range(len(swing_lows) - 1)`,
`j` over `range(i + 1, len(swing_highs))`, in loop order. -/
def wavePairs (L H : ℕ) : List (ℕ × ℕ) :=
  (List.range (L - 1)).flatMap fun i =>
    (List.range' (i + 1) (H - (i + 1))).map fun j => (i, j)

/-- One iteration of the inner loop body of `identify_wave`
(lines 102–136) at the pair `(i, j)`: the three `iloc`/`index` reads (an
out-of-range position raises `IndexError`), the chronological gate, the
retracement computation, the always-true `j < len(swing_highs)` check, the
retracement gate, and the append to `wave_points`. -/
def waveStep (swing_lows swing_highs : List (ℤ × ℚ))
    (wave_points : List WaveCandidate) (ij : ℕ × ℕ) :
    Except String (List WaveCandidate) :=
  match swing_lows[ij.1]? with
  | none => .error "IndexError"
  | some wave_1_low =>
    match swing_highs[ij.2 - 1]? with
    | none => .error "IndexError"
    | some wave_1_high =>
      match swing_lows[ij.2]? with
      | none => .error "IndexError"
      | some wave_2_low =>
        if wave_1_low.1 < wave_1_high.1 ∧ wave_1_high.1 < wave_2_low.1 then
          let wave_1_length := wave_1_high.2 - wave_1_low.2
          let wave_2_retracement := |(wave_2_low.2 - wave_1_high.2) / wave_1_length|
          if ij.2 < swing_highs.length then
            match swing_highs[ij.2]? with
            | none => .error "IndexError"
            | some wave_3_high =>
              if 1/2 ≤ wave_2_retracement ∧ wave_2_retracement ≤ 618/1000 then
                .ok (wave_points ++
                  [mkWaveCandidate wave_1_low wave_1_high wave_2_low wave_3_high])
              else .ok wave_points
          else .ok wave_points
        else .ok wave_points

/-- Runs the loop body over the remaining index pairs, threading the
accumulated `wave_points`; a raised `IndexError` aborts the whole loop,
exactly as an exception leaves the `for` statements in Python. -/
def waveFold (swing_lows swing_highs : List (ℤ × ℚ)) :
    List WaveCandidate → List (ℕ × ℕ) → Except String (List WaveCandidate)
  | wave_points, [] => .ok wave_points
  | wave_points, ij :: rest =>
    match waveStep swing_lows swing_highs wave_points ij with
    | .error e => .error e
    | .ok wave_points2 => waveFold swing_lows swing_highs wave_points2 rest

/-- The complete nested enumeration of `identify_wave` (lines 99–136):
the `wave_points` list it builds, or the `IndexError` it raises. -/
def find_candidates (swing_lows swing_highs : List (ℤ × ℚ)) :
    Except String (List WaveCandidate) :=
  waveFold swing_lows swing_highs []
    (wavePairs swing_lows.length swing_highs.length)

/-- The three ways `identify_wave` returns, one per `return` site:
`found` (line 157, with the classification computed and printed at lines
154–155), `noCandidate` (line 141, after printing "No valid Elliott Wave
patterns found."), and `swallowed` (line 165: an exception was caught by
the blanket `except`, its traceback printed, and a plain `None`
returned). -/
inductive AnalysisOutcome where
  | found : WaveCandidate → String → AnalysisOutcome
  | noCandidate : AnalysisOutcome
  | swallowed : String → AnalysisOutcome
deriving DecidableEq, Repr

/-- Embedding of `identify_wave` (lines 91–165): detects swings, runs the nested
enumeration, returns `noCandidate` when `wave_points` is empty, otherwise
takes `wave_points[-1]`, classifies it, and returns it; any exception
raised inside the `try` block (an `IndexError` from the enumeration or a
`ZeroDivisionError` from `classify_pattern`) is swallowed into `None`. -/
def identify_wave (series : List (ℤ × ℚ)) : AnalysisOutcome :=
  match find_candidates (detect_swings series).2 (detect_swings series).1 with
  | .error e => .swallowed e
  | .ok wave_points =>
    match wave_points.getLast? with
    | none => .noCandidate
    | some latest_wave =>
      match classify_pattern (some latest_wave) with
      | .error e => .swallowed e
      | .ok pattern_type => .found latest_wave pattern_type

/-! ## Spec-side predicates (for the refinement statements of §4.1) -/

/-- Spec §4.1, stated from the spec's words: position `i` is a swing high
iff `1 ≤ i ≤ n − 2` and its price strictly exceeds both neighbours. -/
def specSwingHigh (prices : List ℚ) (i : ℕ) : Prop :=
  1 ≤ i ∧ i + 1 < prices.length ∧
    prices.getD (i - 1) 0 < prices.getD i 0 ∧ prices.getD (i + 1) 0 < prices.getD i 0

/-- Spec §4.1, stated from the spec's words: position `i` is a swing low
iff `1 ≤ i ≤ n − 2` and its price is strictly below both neighbours. -/
def specSwingLow (prices : List ℚ) (i : ℕ) : Prop :=
  1 ≤ i ∧ i + 1 < prices.length ∧
    prices.getD i 0 < prices.getD (i - 1) 0 ∧ prices.getD i 0 < prices.getD (i + 1) 0

instance (prices : List ℚ) (i : ℕ) : Decidable (specSwingHigh prices i) := by
  unfold specSwingHigh; infer_instance

instance (prices : List ℚ) (i : ℕ) : Decidable (specSwingLow prices i) := by
  unfold specSwingLow; infer_instance

/-- Strictly increasing (hence unique) timestamps — the input invariant
the spec's data model assumes of every price series. -/
def StrictIncTs (series : List (ℤ × ℚ)) : Prop :=
  List.Pairwise (fun a b : ℤ × ℚ => a.1 < b.1) series

instance (series : List (ℤ × ℚ)) : Decidable (StrictIncTs series) := by
  unfold StrictIncTs; infer_instance

/-- The shape of every candidate appended by the search: four swing
points passing the chronological gate and the retracement gate. -/
def EmittedShape (c : WaveCandidate) : Prop :=
  ∃ wave_1_low wave_1_high wave_2_low wave_3_high : ℤ × ℚ,
    wave_1_low.1 < wave_1_high.1 ∧ wave_1_high.1 < wave_2_low.1 ∧
    1/2 ≤ |(wave_2_low.2 - wave_1_high.2) / (wave_1_high.2 - wave_1_low.2)| ∧
    |(wave_2_low.2 - wave_1_high.2) / (wave_1_high.2 - wave_1_low.2)| ≤ 618/1000 ∧
    c = mkWaveCandidate wave_1_low wave_1_high wave_2_low wave_3_high

/-! ## Concrete series used as witnesses and counterexamples -/

/-- A 10-point series: swing lows at positions 1, 3, 8 and swing highs at
2, 4, 7; the pair `(i, j) = (0, 2)` passes both gates even though
`highs[2]` precedes `lows[2]` in time. -/
def series10 : List (ℤ × ℚ) :=
  [(0, 10), (1, 2), (2, 8), (3, 4), (4, 9), (5, 6), (6, 6), (7, 8), (8, 5), (9, 7)]

/-- The unique candidate the search emits on `series10`:
`mkWaveCandidate (1, 2) (4, 9) (8, 5) (7, 8)` — its Wave_3 runs from
timestamp 8 back to timestamp 7. -/
def c10 : WaveCandidate := mkWaveCandidate (1, 2) (4, 9) (8, 5) (7, 8)

/-- A 9-point series with two swing lows (positions 1, 3) and three swing
highs (2, 4, 7): the pair `(i, j) = (0, 2)` reads `lows[2]` out of
range. -/
def series9 : List (ℤ × ℚ) :=
  [(0, 10), (1, 2), (2, 9), (3, 5), (4, 8), (5, 6), (6, 6), (7, 7), (8, 3)]

/-- The candidate of spec scenario 3: Wave_1 `(100, 200)`, Wave_2 ending
at `150`, Wave_3 `(150, 400)` (dates immaterial to the classifier). -/
def scenario3 : WaveCandidate :=
  ⟨⟨(100, 200), 0, 1, 1⟩, ⟨(200, 150), 1, 2, 1⟩, ⟨(150, 400), 2, 3, 1⟩⟩

/-- The candidate of spec scenario 5: Wave_1 `(100, 100)`, a zero price
range. -/
def degenerate5 : WaveCandidate :=
  ⟨⟨(100, 100), 0, 1, 1⟩, ⟨(100, 150), 1, 2, 1⟩, ⟨(150, 400), 2, 3, 1⟩⟩

/-- Whether an outcome is one of the two results the spec's facade
contract allows: a reported candidate or the no-candidate sentinel
(`swallowed` is neither). -/
def isReported : AnalysisOutcome → Bool
  | .found _ _ => true
  | .noCandidate => true
  | .swallowed _ => false

/-- The candidate discovered by the loop body at `(i, j) = (0, 1)` on
`series9`, before the pair `(0, 2)` raises. -/
def c9 : WaveCandidate := mkWaveCandidate (1, 2) (2, 9) (3, 5) (4, 8)

/-! ## Helper lemmas on swing detection -/

lemma optGtB_iff (x y : Option ℚ) :
    optGtB x y = true ↔ ∃ a b, x = some a ∧ y = some b ∧ b < a := by
  cases x <;> cases y <;> simp [optGtB]

lemma optLtB_iff (x y : Option ℚ) :
    optLtB x y = true ↔ ∃ a b, x = some a ∧ y = some b ∧ a < b := by
  cases x <;> cases y <;> simp [optLtB]

lemma optGtB_none (x : Option ℚ) : optGtB x none = false := by
  cases x <;> rfl

lemma optLtB_none (x : Option ℚ) : optLtB x none = false := by
  cases x <;> rfl

lemma selectMask_sublist (mask : ℕ → Bool) :
    ∀ (l : List (ℤ × ℚ)) (k : ℕ), List.Sublist (selectMask mask k l) l
  | [], _ => by simp [selectMask]
  | x :: xs, k => by
    rw [selectMask]
    split
    · exact (selectMask_sublist mask xs (k + 1)).cons₂ x
    · exact (selectMask_sublist mask xs (k + 1)).cons x

lemma mem_selectMask (mask : ℕ → Bool) :
    ∀ (l : List (ℤ × ℚ)) (k : ℕ) (x : ℤ × ℚ),
      x ∈ selectMask mask k l ↔ ∃ i, mask (k + i) = true ∧ l[i]? = some x := by
  intro l
  induction l with
  | nil => intro k x; simp [selectMask]
  | cons a xs ih =>
    intro k x
    rw [selectMask]
    cases hm : mask k with
    | false =>
      rw [if_neg (by simp [hm]), ih (k + 1) x]
      constructor
      · rintro ⟨i, hmk, hget⟩
        refine ⟨i + 1, ?_, by simpa using hget⟩
        rwa [show k + (i + 1) = k + 1 + i by omega]
      · rintro ⟨i, hmk, hget⟩
        cases i with
        | zero => rw [Nat.add_zero, hm] at hmk; cases hmk
        | succ i' =>
          refine ⟨i', ?_, by simpa using hget⟩
          rwa [show k + 1 + i' = k + (i' + 1) by omega]
    | true =>
      rw [if_pos (by simp [hm]), List.mem_cons, ih (k + 1) x]
      constructor
      · rintro (rfl | ⟨i, hmk, hget⟩)
        · exact ⟨0, by simpa using hm, by simp⟩
        · refine ⟨i + 1, ?_, by simpa using hget⟩
          rwa [show k + (i + 1) = k + 1 + i by omega]
      · rintro ⟨i, hmk, hget⟩
        cases i with
        | zero => left; simpa using hget.symm
        | succ i' =>
          right
          refine ⟨i', ?_, by simpa using hget⟩
          rwa [show k + 1 + i' = k + (i' + 1) by omega]

lemma mem_selectMask0 (mask : ℕ → Bool) (l : List (ℤ × ℚ)) (x : ℤ × ℚ) :
    x ∈ selectMask mask 0 l ↔ ∃ i, mask i = true ∧ l[i]? = some x := by
  rw [mem_selectMask]
  simp only [Nat.zero_add]

lemma shiftPos_eq_some (prices : List ℚ) (i : ℕ) (p : ℚ) :
    shiftPos prices i = some p ↔ i ≠ 0 ∧ prices[i - 1]? = some p := by
  unfold shiftPos
  split <;> simp_all

lemma swing_high_mask_iff (prices : List ℚ) (i : ℕ) :
    swing_high_mask prices i = true ↔ specSwingHigh prices i := by
  unfold swing_high_mask specSwingHigh
  rw [Bool.and_eq_true, optGtB_iff, optGtB_iff]
  constructor
  · rintro ⟨⟨pc, pp, hpc, hpp, h1⟩, ⟨pc2, pn, hpc2, hpn, h2⟩⟩
    rw [hpc] at hpc2
    obtain rfl : pc = pc2 := Option.some_inj.1 hpc2
    obtain ⟨hi0, hprev⟩ := (shiftPos_eq_some prices i pp).1 hpp
    have hnext : prices[i + 1]? = some pn := hpn
    obtain ⟨hlt, _⟩ := List.getElem?_eq_some.1 hnext
    refine ⟨by omega, hlt, ?_, ?_⟩ <;>
      simp [List.getD_eq_getElem?_getD, hprev, hpc, hnext, h1, h2]
  · rintro ⟨h1, h2, h3, h4⟩
    have hi : i < prices.length := by omega
    have hi1 : i - 1 < prices.length := by omega
    have hc : prices[i]? = some prices[i] := List.getElem?_eq_getElem hi
    have hp : prices[i - 1]? = some (prices.get ⟨i - 1, hi1⟩) :=
      List.getElem?_eq_getElem hi1
    have hn : prices[i + 1]? = some (prices.get ⟨i + 1, h2⟩) :=
      List.getElem?_eq_getElem h2
    rw [List.getD_eq_getElem?_getD, List.getD_eq_getElem?_getD, hc, hp] at h3
    rw [List.getD_eq_getElem?_getD, List.getD_eq_getElem?_getD, hc, hn] at h4
    exact ⟨⟨prices[i], _, hc, (shiftPos_eq_some prices i _).2 ⟨by omega, hp⟩,
        by simpa using h3⟩,
      ⟨prices[i], _, hc, hn, by simpa using h4⟩⟩

lemma swing_low_mask_iff (prices : List ℚ) (i : ℕ) :
    swing_low_mask prices i = true ↔ specSwingLow prices i := by
  unfold swing_low_mask specSwingLow
  rw [Bool.and_eq_true, optLtB_iff, optLtB_iff]
  constructor
  · rintro ⟨⟨pc, pp, hpc, hpp, h1⟩, ⟨pc2, pn, hpc2, hpn, h2⟩⟩
    rw [hpc] at hpc2
    obtain rfl : pc = pc2 := Option.some_inj.1 hpc2
    obtain ⟨hi0, hprev⟩ := (shiftPos_eq_some prices i pp).1 hpp
    have hnext : prices[i + 1]? = some pn := hpn
    obtain ⟨hlt, _⟩ := List.getElem?_eq_some.1 hnext
    refine ⟨by omega, hlt, ?_, ?_⟩ <;>
      simp [List.getD_eq_getElem?_getD, hprev, hpc, hnext, h1, h2]
  · rintro ⟨h1, h2, h3, h4⟩
    have hi : i < prices.length := by omega
    have hi1 : i - 1 < prices.length := by omega
    have hc : prices[i]? = some prices[i] := List.getElem?_eq_getElem hi
    have hp : prices[i - 1]? = some (prices.get ⟨i - 1, hi1⟩) :=
      List.getElem?_eq_getElem hi1
    have hn : prices[i + 1]? = some (prices.get ⟨i + 1, h2⟩) :=
      List.getElem?_eq_getElem h2
    rw [List.getD_eq_getElem?_getD, List.getD_eq_getElem?_getD, hc, hp] at h3
    rw [List.getD_eq_getElem?_getD, List.getD_eq_getElem?_getD, hc, hn] at h4
    exact ⟨⟨prices[i], _, hc, (shiftPos_eq_some prices i _).2 ⟨by omega, hp⟩,
        by simpa using h3⟩,
      ⟨prices[i], _, hc, hn, by simpa using h4⟩⟩

lemma detect_swings_eq (series : List (ℤ × ℚ)) (hts : StrictIncTs series) :
    detect_swings series =
      (selectMask (swing_high_mask (series.map Prod.snd)) 0 series,
       selectMask (swing_low_mask (series.map Prod.snd)) 0 series) := by
  have hsorted : ∀ mask : ℕ → Bool,
      List.Sorted (fun a b : ℤ × ℚ => a.1 ≤ b.1) (selectMask mask 0 series) := by
    intro mask
    exact (List.Pairwise.sublist (selectMask_sublist mask series 0) hts).imp
      fun h => le_of_lt h
  unfold detect_swings
  rw [List.Sorted.insertionSort_eq (hsorted _), List.Sorted.insertionSort_eq (hsorted _)]

lemma strictIncTs_inj {series : List (ℤ × ℚ)} (hts : StrictIncTs series)
    {i j : ℕ} {x y : ℤ × ℚ} (hx : series[i]? = some x) (hy : series[j]? = some y)
    (hxy : x.1 = y.1) : i = j := by
  obtain ⟨hi, hgx⟩ := List.getElem?_eq_some.1 hx
  obtain ⟨hj, hgy⟩ := List.getElem?_eq_some.1 hy
  rcases Nat.lt_trichotomy i j with h | h | h
  · have := List.pairwise_iff_getElem.1 hts i j hi hj h
    rw [hgx, hgy] at this
    omega
  · exact h
  · have := List.pairwise_iff_getElem.1 hts j i hj hi h
    rw [hgx, hgy] at this
    omega

lemma swing_high_mask_short (prices : List ℚ) (h : prices.length ≤ 2) (i : ℕ) :
    swing_high_mask prices i = false := by
  unfold swing_high_mask
  cases i with
  | zero => rw [show shiftPos prices 0 = none from rfl, optGtB_none, Bool.false_and]
  | succ k =>
    rw [show shiftNeg prices (k + 1) = none from
      List.getElem?_eq_none (by omega), optGtB_none, Bool.and_false]

lemma swing_low_mask_short (prices : List ℚ) (h : prices.length ≤ 2) (i : ℕ) :
    swing_low_mask prices i = false := by
  unfold swing_low_mask
  cases i with
  | zero => rw [show shiftPos prices 0 = none from rfl, optLtB_none, Bool.false_and]
  | succ k =>
    rw [show shiftNeg prices (k + 1) = none from
      List.getElem?_eq_none (by omega), optLtB_none, Bool.and_false]

lemma selectMask_eq_nil (mask : ℕ → Bool) (hm : ∀ i, mask i = false) :
    ∀ (l : List (ℤ × ℚ)) (k : ℕ), selectMask mask k l = []
  | [], _ => rfl
  | x :: xs, k => by
    rw [selectMask, if_neg (by simp [hm k]), selectMask_eq_nil mask hm xs (k + 1)]

/-! ## Helper lemmas on the wave-candidate search -/

lemma waveStep_ok {swing_lows swing_highs : List (ℤ × ℚ)}
    {acc : List WaveCandidate} {ij : ℕ × ℕ} {acc2 : List WaveCandidate}
    (h : waveStep swing_lows swing_highs acc ij = .ok acc2) :
    acc2 = acc ∨ ∃ c, EmittedShape c ∧ acc2 = acc ++ [c] := by
  unfold waveStep at h
  cases hl1 : swing_lows[ij.1]? with
  | none => rw [hl1] at h; simp at h
  | some wave_1_low =>
    rw [hl1] at h
    simp only [] at h
    cases hh1 : swing_highs[ij.2 - 1]? with
    | none => rw [hh1] at h; simp at h
    | some wave_1_high =>
      rw [hh1] at h
      simp only [] at h
      cases hl2 : swing_lows[ij.2]? with
      | none => rw [hl2] at h; simp at h
      | some wave_2_low =>
        rw [hl2] at h
        simp only [] at h
        by_cases hchrono : wave_1_low.1 < wave_1_high.1 ∧ wave_1_high.1 < wave_2_low.1
        · rw [if_pos hchrono] at h
          by_cases hj : ij.2 < swing_highs.length
          · rw [if_pos hj] at h
            cases hh2 : swing_highs[ij.2]? with
            | none => rw [hh2] at h; simp at h
            | some wave_3_high =>
              rw [hh2] at h
              simp only [] at h
              by_cases hretr :
                  1/2 ≤ |(wave_2_low.2 - wave_1_high.2) / (wave_1_high.2 - wave_1_low.2)| ∧
                  |(wave_2_low.2 - wave_1_high.2) / (wave_1_high.2 - wave_1_low.2)| ≤ 618/1000
              · rw [if_pos hretr] at h
                injection h with h
                subst h
                exact Or.inr ⟨_, ⟨wave_1_low, wave_1_high, wave_2_low, wave_3_high,
                  hchrono.1, hchrono.2, hretr.1, hretr.2, rfl⟩, rfl⟩
              · rw [if_neg hretr] at h
                injection h with h
                subst h
                exact Or.inl rfl
          · rw [if_neg hj] at h
            injection h with h
            subst h
            exact Or.inl rfl
        · rw [if_neg hchrono] at h
          injection h with h
          subst h
          exact Or.inl rfl

lemma waveFold_ok_mem {swing_lows swing_highs : List (ℤ × ℚ)} :
    ∀ (pairs : List (ℕ × ℕ)) (acc cs : List WaveCandidate),
      waveFold swing_lows swing_highs acc pairs = .ok cs →
      ∀ c ∈ cs, c ∈ acc ∨ EmittedShape c := by
  intro pairs
  induction pairs with
  | nil =>
    intro acc cs h c hc
    unfold waveFold at h
    injection h with h
    subst h
    exact Or.inl hc
  | cons ij rest ih =>
    intro acc cs h c hc
    unfold waveFold at h
    cases hstep : waveStep swing_lows swing_highs acc ij with
    | error e => rw [hstep] at h; exact absurd h (by simp)
    | ok acc2 =>
      rw [hstep] at h
      rcases ih acc2 cs h c hc with hin | hsh
      · rcases waveStep_ok hstep with rfl | ⟨c2, hc2, rfl⟩
        · exact Or.inl hin
        · rcases List.mem_append.1 hin with hin | hin
          · exact Or.inl hin
          · right
            obtain rfl : c = c2 := by simpa using hin
            exact hc2
      · exact Or.inr hsh

lemma find_candidates_mem {swing_lows swing_highs : List (ℤ × ℚ)}
    {cs : List WaveCandidate} (h : find_candidates swing_lows swing_highs = .ok cs)
    {c : WaveCandidate} (hc : c ∈ cs) : EmittedShape c := by
  rcases waveFold_ok_mem _ _ _ h c hc with hin | hsh
  · exact absurd hin (by simp)
  · exact hsh

lemma EmittedShape.len1_ne {c : WaveCandidate} (h : EmittedShape c) :
    c.Wave_1.price_range.2 - c.Wave_1.price_range.1 ≠ 0 := by
  obtain ⟨w1l, w1h, w2l, w3h, _, _, hr, _, rfl⟩ := h
  simp only [mkWaveCandidate]
  intro h0
  rw [h0, div_zero, abs_zero] at hr
  norm_num at hr

lemma EmittedShape.classify_ok {c : WaveCandidate} (h : EmittedShape c) :
    ∃ lbl, classify_pattern (some c) = .ok lbl := by
  have hne := h.len1_ne
  unfold classify_pattern
  simp only []
  rw [if_neg (abs_ne_zero.2 hne)]
  split
  · exact ⟨_, rfl⟩
  · exact ⟨_, rfl⟩

lemma pairwise_flatMap {α β : Type} {R : β → β → Prop} {f : α → List β} :
    ∀ {l : List α},
      List.Pairwise (fun a b => ∀ x ∈ f a, ∀ y ∈ f b, R x y) l →
      (∀ a ∈ l, List.Pairwise R (f a)) → List.Pairwise R (l.flatMap f) := by
  intro l
  induction l with
  | nil => intro _ _; simp
  | cons a l ih =>
    intro hp hall
    rw [List.flatMap_cons, List.pairwise_append]
    rcases List.pairwise_cons.1 hp with ⟨ha, hp2⟩
    refine ⟨hall a (List.mem_cons_self a l),
      ih hp2 (fun b hb => hall b (List.mem_cons_of_mem _ hb)), ?_⟩
    intro x hx y hy
    rcases List.mem_flatMap.1 hy with ⟨b, hb, hyb⟩
    exact ha b hb x hx y hyb

lemma wavePairs_pairwise (L H : ℕ) :
    List.Pairwise (fun a b : ℕ × ℕ => a.1 < b.1 ∨ a.1 = b.1 ∧ a.2 < b.2)
      (wavePairs L H) := by
  unfold wavePairs
  apply pairwise_flatMap
  · refine (List.pairwise_lt_range (L - 1)).imp ?_
    intro a b hab x hx y hy
    obtain ⟨j1, _, rfl⟩ := List.mem_map.1 hx
    obtain ⟨j2, _, rfl⟩ := List.mem_map.1 hy
    exact Or.inl hab
  · intro a _
    rw [List.pairwise_map]
    refine (List.pairwise_lt_range' (a + 1) (H - (a + 1))).imp ?_
    intro j1 j2 hj
    exact Or.inr ⟨rfl, hj⟩

lemma detect_swings_fst (series : List (ℤ × ℚ)) (hts : StrictIncTs series) :
    (detect_swings series).1 =
      selectMask (swing_high_mask (series.map Prod.snd)) 0 series := by
  rw [detect_swings_eq series hts]

lemma detect_swings_snd (series : List (ℤ × ℚ)) (hts : StrictIncTs series) :
    (detect_swings series).2 =
      selectMask (swing_low_mask (series.map Prod.snd)) 0 series := by
  rw [detect_swings_eq series hts]

/-! ## Claim theorems -/

/-- C4: for every price series (with the strictly-increasing-timestamp
input invariant), `_detect_swings` classifies the point at position `i` as
a swing high exactly when `1 ≤ i ≤ n − 2` and its price strictly exceeds
both immediate neighbours, and as a swing low exactly when it is strictly
below both; consequently the first and last points never appear in either
output, and a series of length < 3 yields two empty sequences, not an
error. -/
theorem detect_swings_spec (series : List (ℤ × ℚ)) (hts : StrictIncTs series) :
    (series.length < 3 → detect_swings series = ([], [])) ∧
    ∀ (i : ℕ) (hi : i < series.length),
      (series[i] ∈ (detect_swings series).1 ↔ specSwingHigh (series.map Prod.snd) i) ∧
      (series[i] ∈ (detect_swings series).2 ↔ specSwingLow (series.map Prod.snd) i) := by
  constructor
  · intro hlen
    have hp : (series.map Prod.snd).length ≤ 2 := by simp only [List.length_map]; omega
    rw [detect_swings_eq series hts,
      selectMask_eq_nil _ (swing_high_mask_short _ hp) series 0,
      selectMask_eq_nil _ (swing_low_mask_short _ hp) series 0]
  · intro i hi
    constructor
    · rw [detect_swings_fst series hts, mem_selectMask0]
      constructor
      · rintro ⟨k, hmk, hget⟩
        obtain rfl : k = i := strictIncTs_inj hts hget (List.getElem?_eq_getElem hi) rfl
        exact (swing_high_mask_iff _ _).1 hmk
      · intro hspec
        exact ⟨i, (swing_high_mask_iff _ _).2 hspec, List.getElem?_eq_getElem hi⟩
    · rw [detect_swings_snd series hts, mem_selectMask0]
      constructor
      · rintro ⟨k, hmk, hget⟩
        obtain rfl : k = i := strictIncTs_inj hts hget (List.getElem?_eq_getElem hi) rfl
        exact (swing_low_mask_iff _ _).1 hmk
      · intro hspec
        exact ⟨i, (swing_low_mask_iff _ _).2 hspec, List.getElem?_eq_getElem hi⟩

/-- Witness for C4: the concrete 10-point series `series10` satisfies the
input invariant, and the characterization holds on it. -/
theorem detect_swings_spec_witness :
    StrictIncTs series10 ∧
    ((series10.length < 3 → detect_swings series10 = ([], [])) ∧
     ∀ (i : ℕ) (hi : i < series10.length),
       (series10[i] ∈ (detect_swings series10).1 ↔
         specSwingHigh (series10.map Prod.snd) i) ∧
       (series10[i] ∈ (detect_swings series10).2 ↔
         specSwingLow (series10.map Prod.snd) i)) :=
  ⟨by decide, detect_swings_spec series10 (by decide)⟩

/-- C7: on every series with strictly increasing, unique timestamps, no
timestamp appears both among the swing highs and among the swing lows,
and each of the two output sequences is strictly increasing in
timestamp. -/
theorem detect_swings_exclusive_monotone (series : List (ℤ × ℚ))
    (hts : StrictIncTs series) :
    (∀ (t : ℤ) (p q : ℚ), (t, p) ∈ (detect_swings series).1 →
      (t, q) ∈ (detect_swings series).2 → False) ∧
    List.Pairwise (fun a b : ℤ × ℚ => a.1 < b.1) (detect_swings series).1 ∧
    List.Pairwise (fun a b : ℤ × ℚ => a.1 < b.1) (detect_swings series).2 := by
  refine ⟨?_, ?_, ?_⟩
  · intro t p q hp hq
    rw [detect_swings_fst series hts, mem_selectMask0] at hp
    rw [detect_swings_snd series hts, mem_selectMask0] at hq
    obtain ⟨k1, hm1, hg1⟩ := hp
    obtain ⟨k2, hm2, hg2⟩ := hq
    obtain rfl : k1 = k2 := strictIncTs_inj hts hg1 hg2 rfl
    obtain ⟨-, -, hh, -⟩ := (swing_high_mask_iff _ _).1 hm1
    obtain ⟨-, -, hl, -⟩ := (swing_low_mask_iff _ _).1 hm2
    exact absurd hl (not_lt_of_gt hh)
  · rw [detect_swings_fst series hts]
    exact List.Pairwise.sublist (selectMask_sublist _ series 0) hts
  · rw [detect_swings_snd series hts]
    exact List.Pairwise.sublist (selectMask_sublist _ series 0) hts

/-- Witness for C7: the exclusivity and monotonicity conclusions at the
concrete series `series10`. -/
theorem detect_swings_exclusive_monotone_witness :
    StrictIncTs series10 ∧
    ((∀ (t : ℤ) (p q : ℚ), (t, p) ∈ (detect_swings series10).1 →
       (t, q) ∈ (detect_swings series10).2 → False) ∧
     List.Pairwise (fun a b : ℤ × ℚ => a.1 < b.1) (detect_swings series10).1 ∧
     List.Pairwise (fun a b : ℤ × ℚ => a.1 < b.1) (detect_swings series10).2) :=
  ⟨by decide, detect_swings_exclusive_monotone series10 (by decide)⟩

lemma find_candidates_series10 :
    find_candidates (detect_swings series10).2 (detect_swings series10).1 =
      .ok [c10] := by
  have hd : detect_swings series10 =
      ([(2, 8), (4, 9), (7, 8)], [(1, 2), (3, 4), (8, 5)]) := by decide
  rw [hd]
  norm_num [find_candidates, wavePairs, waveFold, waveStep, mkWaveCandidate, c10,
    abs_div]

lemma find_candidates_series9_error :
    find_candidates (detect_swings series9).2 (detect_swings series9).1 =
      .error "IndexError" := by
  have hd : detect_swings series9 =
      ([(2, 9), (4, 8), (7, 7)], [(1, 2), (3, 5)]) := by decide
  rw [hd]
  norm_num [find_candidates, wavePairs, waveFold, waveStep, mkWaveCandidate,
    abs_div]

lemma classify_pattern_some (c : WaveCandidate)
    (h : |c.Wave_1.price_range.2 - c.Wave_1.price_range.1| ≠ 0) :
    classify_pattern (some c) =
      .ok (if 382/1000 ≤ |c.Wave_2.price_range.2 - c.Wave_2.price_range.1| /
              |c.Wave_1.price_range.2 - c.Wave_1.price_range.1| ∧
            |c.Wave_2.price_range.2 - c.Wave_2.price_range.1| /
              |c.Wave_1.price_range.2 - c.Wave_1.price_range.1| ≤ 618/1000 ∧
            |c.Wave_1.price_range.2 - c.Wave_1.price_range.1| <
              |c.Wave_3.price_range.2 - c.Wave_3.price_range.1|
          then "Impulsive" else "Corrective") := by
  unfold classify_pattern
  simp only []
  rw [if_neg h]
  exact (apply_ite Except.ok _ _ _).symm

/-- C5: for every candidate with nonzero Wave 1 price-range length,
`classify_pattern` returns "Impulsive" iff the Wave-2-to-Wave-1
retracement ratio (absolute segment lengths) lies in [0.382, 0.618] and
Wave 3 is strictly longer than Wave 1, and "Corrective" otherwise; an
absent or empty candidate mapping yields "Insufficient Data"; and the
concrete scenario-3 candidate classifies as "Impulsive". -/
theorem classify_pattern_spec (c : WaveCandidate)
    (h : |c.Wave_1.price_range.2 - c.Wave_1.price_range.1| ≠ 0) :
    (classify_pattern (some c) = .ok "Impulsive" ↔
      (382/1000 ≤ |c.Wave_2.price_range.2 - c.Wave_2.price_range.1| /
          |c.Wave_1.price_range.2 - c.Wave_1.price_range.1| ∧
       |c.Wave_2.price_range.2 - c.Wave_2.price_range.1| /
          |c.Wave_1.price_range.2 - c.Wave_1.price_range.1| ≤ 618/1000 ∧
       |c.Wave_1.price_range.2 - c.Wave_1.price_range.1| <
          |c.Wave_3.price_range.2 - c.Wave_3.price_range.1|)) ∧
    (classify_pattern (some c) = .ok "Corrective" ↔
      ¬ (382/1000 ≤ |c.Wave_2.price_range.2 - c.Wave_2.price_range.1| /
          |c.Wave_1.price_range.2 - c.Wave_1.price_range.1| ∧
       |c.Wave_2.price_range.2 - c.Wave_2.price_range.1| /
          |c.Wave_1.price_range.2 - c.Wave_1.price_range.1| ≤ 618/1000 ∧
       |c.Wave_1.price_range.2 - c.Wave_1.price_range.1| <
          |c.Wave_3.price_range.2 - c.Wave_3.price_range.1|)) ∧
    classify_pattern none = .ok "Insufficient Data" ∧
    classify_pattern (some scenario3) = .ok "Impulsive" := by
  rw [classify_pattern_some c h]
  refine ⟨?_, ?_, rfl, ?_⟩
  · by_cases hP : 382/1000 ≤ |c.Wave_2.price_range.2 - c.Wave_2.price_range.1| /
          |c.Wave_1.price_range.2 - c.Wave_1.price_range.1| ∧
       |c.Wave_2.price_range.2 - c.Wave_2.price_range.1| /
          |c.Wave_1.price_range.2 - c.Wave_1.price_range.1| ≤ 618/1000 ∧
       |c.Wave_1.price_range.2 - c.Wave_1.price_range.1| <
          |c.Wave_3.price_range.2 - c.Wave_3.price_range.1|
    · rw [if_pos hP]
      simp [hP]
    · rw [if_neg hP]
      simp [hP]
  · by_cases hP : 382/1000 ≤ |c.Wave_2.price_range.2 - c.Wave_2.price_range.1| /
          |c.Wave_1.price_range.2 - c.Wave_1.price_range.1| ∧
       |c.Wave_2.price_range.2 - c.Wave_2.price_range.1| /
          |c.Wave_1.price_range.2 - c.Wave_1.price_range.1| ≤ 618/1000 ∧
       |c.Wave_1.price_range.2 - c.Wave_1.price_range.1| <
          |c.Wave_3.price_range.2 - c.Wave_3.price_range.1|
    · rw [if_pos hP]
      simp [hP]
    · rw [if_neg hP]
      simp [hP]
  · norm_num [classify_pattern, scenario3]

/-- Witness for C5: the scenario-3 candidate has nonzero Wave 1 length and
the characterization holds at it. -/
theorem classify_pattern_spec_witness :
    |scenario3.Wave_1.price_range.2 - scenario3.Wave_1.price_range.1| ≠ 0 ∧
    ((classify_pattern (some scenario3) = .ok "Impulsive" ↔
      (382/1000 ≤ |scenario3.Wave_2.price_range.2 - scenario3.Wave_2.price_range.1| /
          |scenario3.Wave_1.price_range.2 - scenario3.Wave_1.price_range.1| ∧
       |scenario3.Wave_2.price_range.2 - scenario3.Wave_2.price_range.1| /
          |scenario3.Wave_1.price_range.2 - scenario3.Wave_1.price_range.1| ≤ 618/1000 ∧
       |scenario3.Wave_1.price_range.2 - scenario3.Wave_1.price_range.1| <
          |scenario3.Wave_3.price_range.2 - scenario3.Wave_3.price_range.1|)) ∧
     (classify_pattern (some scenario3) = .ok "Corrective" ↔
      ¬ (382/1000 ≤ |scenario3.Wave_2.price_range.2 - scenario3.Wave_2.price_range.1| /
          |scenario3.Wave_1.price_range.2 - scenario3.Wave_1.price_range.1| ∧
       |scenario3.Wave_2.price_range.2 - scenario3.Wave_2.price_range.1| /
          |scenario3.Wave_1.price_range.2 - scenario3.Wave_1.price_range.1| ≤ 618/1000 ∧
       |scenario3.Wave_1.price_range.2 - scenario3.Wave_1.price_range.1| <
          |scenario3.Wave_3.price_range.2 - scenario3.Wave_3.price_range.1|)) ∧
     classify_pattern none = .ok "Insufficient Data" ∧
     classify_pattern (some scenario3) = .ok "Impulsive") :=
  ⟨by norm_num [scenario3], classify_pattern_spec scenario3 (by norm_num [scenario3])⟩

/-- C9: on the scenario-5 candidate (Wave 1 price range `(100, 100)`, zero
length), `classify_pattern` hits the division by zero: the code raises a
plain, unhandled `ZeroDivisionError` — no typed, recoverable
`DegenerateWaveError` exists anywhere in the code. -/
theorem classify_pattern_zero_division :
    classify_pattern (some degenerate5) = .error "ZeroDivisionError" := by
  norm_num [classify_pattern, degenerate5]

/-- Counterexample to C1 as stated: on `series10` the search emits exactly
one candidate, whose Wave_3 starts at timestamp 8 and ends at timestamp 7
— so `Wave_2.end_date < Wave_3.end_date` fails and Wave_3's duration is
negative. -/
theorem emitted_candidate_chronology_counterexample :
    find_candidates (detect_swings series10).2 (detect_swings series10).1 =
      .ok [c10] ∧
    c10.Wave_2.end_date = 8 ∧ c10.Wave_3.start_date = 8 ∧
    c10.Wave_3.end_date = 7 ∧
    ¬ (c10.Wave_2.end_date < c10.Wave_3.end_date) ∧
    c10.Wave_3.duration < 0 :=
  ⟨find_candidates_series10, by decide, by decide, by decide, by decide, by decide⟩

/-- C1 (amended): for every emitted candidate,
`Wave_1.start_date < Wave_1.end_date < Wave_2.end_date` strictly, segment
endpoints chain in both price and date, and Wave_1's and Wave_2's
durations are non-negative — but nothing constrains `Wave_3.end_date`, so
neither `Wave_2.end_date < Wave_3.end_date` nor `0 ≤ Wave_3.duration`
holds in general (see the counterexample). -/
theorem emitted_candidate_chronology (swing_lows swing_highs : List (ℤ × ℚ))
    (cs : List WaveCandidate) (c : WaveCandidate)
    (h : find_candidates swing_lows swing_highs = .ok cs) (hc : c ∈ cs) :
    c.Wave_1.start_date < c.Wave_1.end_date ∧
    c.Wave_1.end_date < c.Wave_2.end_date ∧
    c.Wave_1.end_date = c.Wave_2.start_date ∧
    c.Wave_2.end_date = c.Wave_3.start_date ∧
    c.Wave_1.price_range.2 = c.Wave_2.price_range.1 ∧
    c.Wave_2.price_range.2 = c.Wave_3.price_range.1 ∧
    0 ≤ c.Wave_1.duration ∧ 0 ≤ c.Wave_2.duration ∧
    c.Wave_1.duration = c.Wave_1.end_date - c.Wave_1.start_date ∧
    c.Wave_2.duration = c.Wave_2.end_date - c.Wave_2.start_date ∧
    c.Wave_3.duration = c.Wave_3.end_date - c.Wave_3.start_date := by
  obtain ⟨w1l, w1h, w2l, w3h, h1, h2, -, -, rfl⟩ := find_candidates_mem h hc
  refine ⟨h1, h2, rfl, rfl, rfl, rfl, ?_, ?_, rfl, rfl, rfl⟩
  · simp only [mkWaveCandidate]
    omega
  · simp only [mkWaveCandidate]
    omega

/-- Witness for the amended C1 at the candidate emitted on `series10`. -/
theorem emitted_candidate_chronology_witness :
    find_candidates (detect_swings series10).2 (detect_swings series10).1 =
      .ok [c10] ∧ c10 ∈ [c10] ∧
    (c10.Wave_1.start_date < c10.Wave_1.end_date ∧
     c10.Wave_1.end_date < c10.Wave_2.end_date ∧
     c10.Wave_1.end_date = c10.Wave_2.start_date ∧
     c10.Wave_2.end_date = c10.Wave_3.start_date ∧
     c10.Wave_1.price_range.2 = c10.Wave_2.price_range.1 ∧
     c10.Wave_2.price_range.2 = c10.Wave_3.price_range.1 ∧
     0 ≤ c10.Wave_1.duration ∧ 0 ≤ c10.Wave_2.duration ∧
     c10.Wave_1.duration = c10.Wave_1.end_date - c10.Wave_1.start_date ∧
     c10.Wave_2.duration = c10.Wave_2.end_date - c10.Wave_2.start_date ∧
     c10.Wave_3.duration = c10.Wave_3.end_date - c10.Wave_3.start_date) :=
  ⟨find_candidates_series10, by simp,
    emitted_candidate_chronology _ _ _ _ find_candidates_series10 (by simp)⟩

/-- C2 is violated by the code: on `series9` there are three swing highs
but only two swing lows, the nested loops visit `(i, j) = (0, 2)`, and the
read `lows[2]` is out of range — the search raises `IndexError` instead of
being protected by its loop bounds. -/
theorem lows_index_out_of_range_at_series9 :
    (detect_swings series9).1.length = 3 ∧
    (detect_swings series9).2.length = 2 ∧
    (0, 2) ∈ wavePairs (detect_swings series9).2.length
      (detect_swings series9).1.length ∧
    (detect_swings series9).2[2]? = none ∧
    find_candidates (detect_swings series9).2 (detect_swings series9).1 =
      .error "IndexError" :=
  ⟨by decide, by decide, by decide, by decide, find_candidates_series9_error⟩

/-- C3 is violated by the code: on `series9` the `IndexError` raised inside
the enumeration is caught by the blanket `except` of `identify_wave`,
printed, and turned into a plain `None` — the caller receives neither a
typed error nor the no-candidate sentinel. -/
theorem identify_wave_swallows_exception_at_series9 :
    identify_wave series9 = .swallowed "IndexError" := by
  unfold identify_wave
  rw [find_candidates_series9_error]

/-- C6: every candidate emitted by the search has its search-time
retracement ratio `|(wave_2_low − wave_1_high) / (wave_1_high − wave_1_low)|`
(reconstructed from the stored price ranges) in the closed band
[0.5, 0.618]. -/
theorem emitted_candidate_retracement_band (swing_lows swing_highs : List (ℤ × ℚ))
    (cs : List WaveCandidate) (c : WaveCandidate)
    (h : find_candidates swing_lows swing_highs = .ok cs) (hc : c ∈ cs) :
    1/2 ≤ |(c.Wave_2.price_range.2 - c.Wave_2.price_range.1) /
        (c.Wave_1.price_range.2 - c.Wave_1.price_range.1)| ∧
    |(c.Wave_2.price_range.2 - c.Wave_2.price_range.1) /
        (c.Wave_1.price_range.2 - c.Wave_1.price_range.1)| ≤ 618/1000 := by
  obtain ⟨w1l, w1h, w2l, w3h, -, -, hr1, hr2, rfl⟩ := find_candidates_mem h hc
  simp only [mkWaveCandidate]
  exact ⟨hr1, hr2⟩

/-- Witness for C6 at the candidate emitted on `series10`. -/
theorem emitted_candidate_retracement_band_witness :
    find_candidates (detect_swings series10).2 (detect_swings series10).1 =
      .ok [c10] ∧ c10 ∈ [c10] ∧
    (1/2 ≤ |(c10.Wave_2.price_range.2 - c10.Wave_2.price_range.1) /
        (c10.Wave_1.price_range.2 - c10.Wave_1.price_range.1)| ∧
     |(c10.Wave_2.price_range.2 - c10.Wave_2.price_range.1) /
        (c10.Wave_1.price_range.2 - c10.Wave_1.price_range.1)| ≤ 618/1000) :=
  ⟨find_candidates_series10, by simp,
    emitted_candidate_retracement_band _ _ _ _ find_candidates_series10 (by simp)⟩

/-- C10: every emitted candidate has nonzero Wave 1 price-range length —
a zero `wave_1_length` forces the search-time ratio outside the
`[0.5, 0.618]` gate (to `inf`/`nan` on numpy floats, to `0` in the ℚ
model, rejected either way) — so `classify_pattern` applied to an emitted
candidate never takes the division-by-zero branch. -/
theorem emitted_candidate_nonzero_wave1 (swing_lows swing_highs : List (ℤ × ℚ))
    (cs : List WaveCandidate) (c : WaveCandidate)
    (h : find_candidates swing_lows swing_highs = .ok cs) (hc : c ∈ cs) :
    c.Wave_1.price_range.2 - c.Wave_1.price_range.1 ≠ 0 ∧
    ∃ lbl, classify_pattern (some c) = .ok lbl :=
  ⟨(find_candidates_mem h hc).len1_ne, (find_candidates_mem h hc).classify_ok⟩

/-- Witness for C10 at the candidate emitted on `series10`. -/
theorem emitted_candidate_nonzero_wave1_witness :
    find_candidates (detect_swings series10).2 (detect_swings series10).1 =
      .ok [c10] ∧ c10 ∈ [c10] ∧
    (c10.Wave_1.price_range.2 - c10.Wave_1.price_range.1 ≠ 0 ∧
     ∃ lbl, classify_pattern (some c10) = .ok lbl) :=
  ⟨find_candidates_series10, by simp,
    emitted_candidate_nonzero_wave1 _ _ _ _ find_candidates_series10 (by simp)⟩

/-- Counterexample to C8 as stated: on `series9` the loop body has already
discovered a candidate at `(i, j) = (0, 1)`, yet `identify_wave` returns
neither the no-candidate sentinel nor a candidate with its label — the
`IndexError` raised at `(0, 2)` discards everything and the facade
returns the swallowed-exception `None`. -/
theorem identify_wave_reported_counterexample :
    waveFold (detect_swings series9).2 (detect_swings series9).1 [] [(0, 1)] =
      .ok [c9] ∧
    isReported (identify_wave series9) = false := by
  constructor
  · have hd : detect_swings series9 =
        ([(2, 9), (4, 8), (7, 7)], [(1, 2), (3, 5)]) := by decide
    rw [hd]
    norm_num [waveFold, waveStep, mkWaveCandidate, c9, abs_div]
  · unfold identify_wave
    rw [find_candidates_series9_error]
    rfl

/-- C8 (amended): whenever the nested enumeration completes without an
out-of-range read (`find_candidates` returns `ok`), the facade returns
the no-candidate sentinel exactly when no candidate was emitted, and
otherwise returns the last candidate in discovery order together with the
label `classify_pattern` computes for it; the discovery order itself (the
visited `(i, j)` pairs) is strictly increasing lexicographically, i.e.
non-decreasing in `i` then `j`.  When the enumeration instead raises, the
facade returns the swallowed-exception `None` (see the counterexample). -/
theorem identify_wave_selects_last (series : List (ℤ × ℚ))
    (cs : List WaveCandidate)
    (h : find_candidates (detect_swings series).2 (detect_swings series).1 =
      .ok cs) :
    (cs = [] → identify_wave series = .noCandidate) ∧
    (∀ hne : cs ≠ [], ∃ lbl,
      classify_pattern (some (cs.getLast hne)) = .ok lbl ∧
      identify_wave series = .found (cs.getLast hne) lbl) ∧
    List.Pairwise (fun a b : ℕ × ℕ => a.1 < b.1 ∨ a.1 = b.1 ∧ a.2 < b.2)
      (wavePairs (detect_swings series).2.length
        (detect_swings series).1.length) := by
  refine ⟨?_, ?_, wavePairs_pairwise _ _⟩
  · rintro rfl
    unfold identify_wave
    rw [h]
    rfl
  · intro hne
    have hmem : cs.getLast hne ∈ cs := List.getLast_mem hne
    obtain ⟨lbl, hlbl⟩ := (find_candidates_mem h hmem).classify_ok
    refine ⟨lbl, hlbl, ?_⟩
    unfold identify_wave
    rw [h]
    simp only []
    rw [List.getLast?_eq_getLast cs hne]
    simp only []
    rw [hlbl]

/-- Witness for the amended C8 at `series10`, whose enumeration completes
and emits exactly one candidate. -/
theorem identify_wave_selects_last_witness :
    find_candidates (detect_swings series10).2 (detect_swings series10).1 =
      .ok [c10] ∧
    (([c10] : List WaveCandidate) = [] → identify_wave series10 = .noCandidate) ∧
    (∀ hne : ([c10] : List WaveCandidate) ≠ [], ∃ lbl,
      classify_pattern (some (([c10] : List WaveCandidate).getLast hne)) =
        .ok lbl ∧
      identify_wave series10 =
        .found (([c10] : List WaveCandidate).getLast hne) lbl) ∧
    List.Pairwise (fun a b : ℕ × ℕ => a.1 < b.1 ∨ a.1 = b.1 ∧ a.2 < b.2)
      (wavePairs (detect_swings series10).2.length
        (detect_swings series10).1.length) :=
  ⟨find_candidates_series10,
    (identify_wave_selects_last series10 [c10] find_candidates_series10).1,
    (identify_wave_selects_last series10 [c10] find_candidates_series10).2.1,
    (identify_wave_selects_last series10 [c10] find_candidates_series10).2.2⟩
